import Mathlib

/-!
Verification of the node-graph editor core of the DE-Architect-Assistant
repository: the graph store (nodes and connections), the viewport
(pan/zoom camera), the drag and wire interaction handlers, submit
validation, and error formatting.  Numbers that are IEEE doubles in the
source are embedded as exact rationals; the host's UUID generator is
embedded as an explicit fresh-id argument.
-/

/-- World-coordinate position of a node (`NodePosition` in `types.ts`). -/
structure NodePosition where
  x : ℚ
  y : ℚ
deriving DecidableEq, Repr

/-- A data-source node (`DataSource` in `types.ts`). -/
structure DataSource where
  id : String
  name : String
  database : String
  schema : String
  tables : String
  dataType : String
  volume : String
  frequency : String
  position : Option NodePosition
deriving DecidableEq, Repr

/-- A transformation node (`TransformationNode` in `types.ts`). -/
structure TransformationNode where
  id : String
  name : String
  processingType : String
  description : String
  position : Option NodePosition
deriving DecidableEq, Repr

/-- A data-target node (`DataTarget` in `types.ts`). -/
structure DataTarget where
  id : String
  name : String
  storageFormat : String
  partitioning : String
  position : Option NodePosition
deriving DecidableEq, Repr

/-- A directed connection between two nodes (`Connection` in `types.ts`). -/
structure Connection where
  id : String
  sourceId : String
  targetId : String
deriving DecidableEq, Repr

/-- The application form state (`DeRequestState` in `types.ts`): the graph
    aggregate of the three typed node collections plus the connections,
    together with the textual requirement fields. -/
structure DeRequestState where
  techRequirements : String
  productRequirements : String
  existingTools : List String
  dataSources : List DataSource
  transformationNodes : List TransformationNode
  dataTargets : List DataTarget
  connections : List Connection
deriving DecidableEq, Repr

/-- A node found by id, tagged with its kind (result type of `findNode`
    in the builder of `src/unnamed/part_001`). -/
inductive GraphNode where
  | src : DataSource → GraphNode
  | trans : TransformationNode → GraphNode
  | tgt : DataTarget → GraphNode
deriving DecidableEq, Repr

/-- The function `findNode` from `src/unnamed/part_001` (lines 813-817): looks the id up
    in the sources, then the transformations, then the targets. -/
def findNode (fs : DeRequestState) (nodeId : String) : Option GraphNode :=
  match fs.dataSources.find? (fun s => s.id == nodeId) with
  | some s => some (GraphNode.src s)
  | none =>
    match fs.transformationNodes.find? (fun t => t.id == nodeId) with
    | some t => some (GraphNode.trans t)
    | none => (fs.dataTargets.find? (fun t => t.id == nodeId)).map GraphNode.tgt

/-- The function `addConnection` from `src/App.tsx` (lines 121-135) and
    `src/unnamed/part_004` (lines 165-179).  The host generates the new id
    with `crypto.randomUUID()`; it is passed here as `freshId`. -/
def addConnection (fs : DeRequestState) (sourceId targetId freshId : String) :
    DeRequestState :=
  if sourceId == targetId then fs
  else if fs.connections.any
      (fun c => c.sourceId == sourceId && c.targetId == targetId) then fs
  else { fs with connections :=
          fs.connections ++ [⟨freshId, sourceId, targetId⟩] }

/-- The function `removeSourceNode` from `src/App.tsx` (lines 105-111) and
    `src/unnamed/part_004` (lines 141-147). -/
def removeSourceNode (fs : DeRequestState) (nodeId : String) : DeRequestState :=
  { fs with
    dataSources := fs.dataSources.filter (fun node => node.id != nodeId)
    connections := fs.connections.filter
      (fun c => c.sourceId != nodeId && c.targetId != nodeId) }

/-- The function `removeTransformationNode` from `src/unnamed/part_004`
    (lines 149-155). -/
def removeTransformationNode (fs : DeRequestState) (nodeId : String) :
    DeRequestState :=
  { fs with
    transformationNodes :=
      fs.transformationNodes.filter (fun node => node.id != nodeId)
    connections := fs.connections.filter
      (fun c => c.sourceId != nodeId && c.targetId != nodeId) }

/-- The function `removeTargetNode` from `src/App.tsx` (lines 113-119) and
    `src/unnamed/part_004` (lines 157-163). -/
def removeTargetNode (fs : DeRequestState) (nodeId : String) : DeRequestState :=
  { fs with
    dataTargets := fs.dataTargets.filter (fun node => node.id != nodeId)
    connections := fs.connections.filter
      (fun c => c.sourceId != nodeId && c.targetId != nodeId) }

/-- The function `removeConnection` from `src/App.tsx` (lines 137-142) and
    `src/unnamed/part_004` (lines 181-186). -/
def removeConnection (fs : DeRequestState) (connId : String) : DeRequestState :=
  { fs with connections := fs.connections.filter (fun c => c.id != connId) }

/-- The viewport (camera) state of the pan/zoom builder variant,
    the `useState` viewport initializer (x 0, y 0, zoom 1) in `src/unnamed/part_001`
    (line 533): `x`/`y` are the pan offsets in screen pixels, `zoom` the
    scale factor. -/
structure Viewport where
  x : ℚ
  y : ℚ
  zoom : ℚ
deriving DecidableEq, Repr

/-- The function `screenToWorld` from `src/unnamed/part_001` (lines 572-580): converts
    client coordinates to world coordinates.  `rectLeft`/`rectTop` are the
    canvas bounding-rectangle origin read from the DOM. -/
def screenToWorld (v : Viewport) (rectLeft rectTop screenX screenY : ℚ) :
    ℚ × ℚ :=
  ((screenX - rectLeft - v.x) / v.zoom, (screenY - rectTop - v.y) / v.zoom)

/-- The function `handleWheel` from `src/unnamed/part_001` (lines 583-602): wheel zoom
    anchored at the cursor.  `zoomSensitivity = -0.001` is exact here. -/
def handleWheel (v : Viewport) (rectLeft rectTop clientX clientY deltaY : ℚ) :
    Viewport :=
  let delta := deltaY * (-(1 / 1000) : ℚ)
  let newZoom := max (1 / 10) (min 5 (v.zoom * (1 + delta)))
  let mouseX := clientX - rectLeft
  let mouseY := clientY - rectTop
  let worldX := (mouseX - v.x) / v.zoom
  let worldY := (mouseY - v.y) / v.zoom
  { x := mouseX - worldX * newZoom, y := mouseY - worldY * newZoom,
    zoom := newZoom }

/-- The function `handleZoomIn` from `src/unnamed/part_001` (lines 617-633): discrete
    zoom-in by factor 1.2, anchored at the canvas center. -/
def handleZoomIn (v : Viewport) (rectWidth rectHeight : ℚ) : Viewport :=
  let centerX := rectWidth / 2
  let centerY := rectHeight / 2
  let newZoom := min 5 (v.zoom * (6 / 5))
  let worldX := (centerX - v.x) / v.zoom
  let worldY := (centerY - v.y) / v.zoom
  { x := centerX - worldX * newZoom, y := centerY - worldY * newZoom,
    zoom := newZoom }

/-- The function `handleZoomOut` from `src/unnamed/part_001` (lines 635-650): discrete
    zoom-out by factor 1/1.2, anchored at the canvas center. -/
def handleZoomOut (v : Viewport) (rectWidth rectHeight : ℚ) : Viewport :=
  let centerX := rectWidth / 2
  let centerY := rectHeight / 2
  let newZoom := max (1 / 10) (v.zoom / (6 / 5))
  let worldX := (centerX - v.x) / v.zoom
  let worldY := (centerY - v.y) / v.zoom
  { x := centerX - worldX * newZoom, y := centerY - worldY * newZoom,
    zoom := newZoom }

/-- The function `resetView` from `src/unnamed/part_001` (lines 613-615). -/
def resetView : Viewport := { x := 0, y := 0, zoom := 1 }

/-- The initial viewport state, x 0, y 0, zoom 1
    (`src/unnamed/part_001` line 533). -/
def initialViewport : Viewport := { x := 0, y := 0, zoom := 1 }

/-- One user-driven viewport operation of the pan/zoom builder: wheel
    zoom, the two toolbar zoom buttons, a pan move (the panning branch of
    `onMouseMove`, lines 727-733, whose deltas are `dx`/`dy`), or the
    reset button. -/
inductive ViewOp where
  | wheel (rectLeft rectTop clientX clientY deltaY : ℚ)
  | zoomIn (rectWidth rectHeight : ℚ)
  | zoomOut (rectWidth rectHeight : ℚ)
  | pan (dx dy : ℚ)
  | reset
deriving DecidableEq, Repr

/-- Interpretation of one viewport operation on the viewport state. -/
def applyViewOp (v : Viewport) : ViewOp → Viewport
  | ViewOp.wheel rl rt cx cy dy => handleWheel v rl rt cx cy dy
  | ViewOp.zoomIn rw rh => handleZoomIn v rw rh
  | ViewOp.zoomOut rw rh => handleZoomOut v rw rh
  | ViewOp.pan dx dy => { v with x := v.x + dx, y := v.y + dy }
  | ViewOp.reset => resetView

/-- The function `updateSourceNode`, applied with a position-only update: the
    position-merging update of `updateSourceNode` in `src/App.tsx` (lines 61-68) and
    `src/unnamed/part_004` (lines 77-84), as invoked by the builders'
    `onUpdateSource(id, \x7b position \x7d)` calls. -/
def updateSourcePosition (fs : DeRequestState) (nodeId : String)
    (p : NodePosition) : DeRequestState :=
  { fs with dataSources := fs.dataSources.map (fun node =>
      if node.id == nodeId then { node with position := some p } else node) }

/-- The function `updateTransformationNode`, applied with a position-only
    update, from
    `src/unnamed/part_004` (lines 86-93), restricted to a position merge. -/
def updateTransformationPosition (fs : DeRequestState) (nodeId : String)
    (p : NodePosition) : DeRequestState :=
  { fs with transformationNodes := fs.transformationNodes.map (fun node =>
      if node.id == nodeId then { node with position := some p } else node) }

/-- The function `updateTargetNode`, applied with a position-only update,
    from `src/App.tsx`
    (lines 70-77) and `src/unnamed/part_004` (lines 95-102), restricted to
    a position merge. -/
def updateTargetPosition (fs : DeRequestState) (nodeId : String)
    (p : NodePosition) : DeRequestState :=
  { fs with dataTargets := fs.dataTargets.map (fun node =>
      if node.id == nodeId then { node with position := some p } else node) }

/-- The interaction state of the pan/zoom builder variant
    (`src/unnamed/part_001`, lines 528-551): viewport, pan gesture state,
    node-drag state, wire state, and the graph form state owned by the
    host application. -/
structure EditorState where
  viewport : Viewport
  isPanning : Bool
  lastMouse : ℚ × ℚ
  draggingId : Option String
  dragOffset : ℚ × ℚ
  hasMoved : Bool
  connectingSourceId : Option String
  mousePos : Option (ℚ × ℚ)
  form : DeRequestState
deriving DecidableEq, Repr

/-- The function `onMouseMove` from `src/unnamed/part_001` (lines 723-771): while
    panning, offsets advance by the pixel deltas against the last mouse
    position; while wiring, only the preview point moves; while dragging,
    the dragged node's position becomes the world cursor minus the grab
    offset, clamped from below at -500 on each axis, routed to whichever
    typed collection holds the dragged id. -/
def onMouseMove (st : EditorState) (rectLeft rectTop clientX clientY : ℚ) :
    EditorState :=
  if st.isPanning then
    let dx := clientX - st.lastMouse.1
    let dy := clientY - st.lastMouse.2
    { st with
      viewport :=
        { st.viewport with x := st.viewport.x + dx, y := st.viewport.y + dy }
      lastMouse := (clientX, clientY) }
  else
    let worldMouse := screenToWorld st.viewport rectLeft rectTop clientX clientY
    match st.connectingSourceId with
    | some _ => { st with mousePos := some worldMouse }
    | none =>
      match st.draggingId with
      | none => st
      | some dId =>
        let st1 := { st with hasMoved := true }
        let newX := worldMouse.1 - st1.dragOffset.1
        let newY := worldMouse.2 - st1.dragOffset.2
        let clampedX := max (-500) newX
        let clampedY := max (-500) newY
        if st1.form.dataSources.any (fun s => s.id == dId) then
          { st1 with form :=
              updateSourcePosition st1.form dId ⟨clampedX, clampedY⟩ }
        else if st1.form.transformationNodes.any (fun t => t.id == dId) then
          { st1 with form :=
              updateTransformationPosition st1.form dId ⟨clampedX, clampedY⟩ }
        else if st1.form.dataTargets.any (fun t => t.id == dId) then
          { st1 with form :=
              updateTargetPosition st1.form dId ⟨clampedX, clampedY⟩ }
        else st1

/-- The function `endWiring` from `src/components/VisualBuilder.tsx` (lines 129-136)
    and `src/unnamed/part_001` (lines 713-720): fired on mouse-up over a
    node's input anchor.  Commits a connection only when a wire is in
    progress and its source differs from the drop target, then returns the
    wire state to idle. -/
def endWiring (st : EditorState) (targetId freshId : String) : EditorState :=
  let form' :=
    match st.connectingSourceId with
    | some src =>
      if src != targetId then addConnection st.form src targetId freshId
      else st.form
    | none => st.form
  { st with form := form', connectingSourceId := none, mousePos := none }

/-- The function `onMouseUp` from `src/components/VisualBuilder.tsx` (lines 182-186)
    and `src/unnamed/part_001` (lines 773-778): fired on release anywhere
    that is not an input anchor (empty canvas, a node body, an output
    handle); resets every active gesture without touching the graph. -/
def onMouseUp (st : EditorState) : EditorState :=
  { st with draggingId := none, connectingSourceId := none,
            mousePos := none, isPanning := false }

/-- The interaction state of the simpler builder variant
    (`src/components/VisualBuilder.tsx`, lines 33-50): no viewport, screen
    coordinates are world coordinates. -/
structure SimpleBuilderState where
  isExpanded : Bool
  draggingId : Option String
  dragOffset : ℚ × ℚ
  hasMoved : Bool
  connectingSourceId : Option String
  mousePos : Option (ℚ × ℚ)
  sources : List DataSource
  targets : List DataTarget
  connections : List Connection
deriving DecidableEq, Repr

/-- The function `onMouseMove` from `src/components/VisualBuilder.tsx` (lines 139-180):
    while wiring, only the preview point moves; while dragging, the
    dragged node's position is clamped BOTH from below at 0 and from above
    at `rect.width - 200` / `rect.height - 80` (both `isExpanded` branches
    use the same bounds). -/
def simpleOnMouseMove (st : SimpleBuilderState)
    (rectLeft rectTop rectWidth rectHeight clientX clientY : ℚ) :
    SimpleBuilderState :=
  match st.connectingSourceId with
  | some _ =>
    { st with mousePos := some (clientX - rectLeft, clientY - rectTop) }
  | none =>
    match st.draggingId with
    | none => st
    | some dId =>
      let st1 := { st with hasMoved := true }
      let newX := clientX - st1.dragOffset.1
      let newY := clientY - st1.dragOffset.2
      let maxX := rectWidth - 200
      let maxY := rectHeight - 80
      let clampedX := max 0 (min newX maxX)
      let clampedY := max 0 (min newY maxY)
      if st1.sources.any (fun s => s.id == dId) then
        { st1 with sources := st1.sources.map (fun node =>
            if node.id == dId then
              { node with position := some ⟨clampedX, clampedY⟩ }
            else node) }
      else if st1.targets.any (fun t => t.id == dId) then
        { st1 with targets := st1.targets.map (fun node =>
            if node.id == dId then
              { node with position := some ⟨clampedX, clampedY⟩ }
            else node) }
      else st1

/-- Substring search on character lists: `startsWith hay needle` is true
    when `needle` is an initial segment of `hay`. -/
def startsWith : List Char → List Char → Bool
  | _, [] => true
  | [], _ :: _ => false
  | a :: as, b :: bs => a == b && startsWith as bs

/-- The function `hasSub needle hay`: `needle` occurs contiguously inside `hay`. -/
def hasSub (needle : List Char) : List Char → Bool
  | [] => startsWith [] needle
  | c :: cs => startsWith (c :: cs) needle || hasSub needle cs

/-- The embedding of JavaScript `String.prototype.includes`, used by
    `formatError` as `errorMessage.includes(...)`. -/
def strContains (s pat : String) : Bool :=
  hasSub pat.data s.data

/-- The function `formatError` from `src/unnamed/part_000` (lines 165-171) and
    `src/unnamed/part_001` (lines 322-328), over the extracted error
    message string. -/
def formatError (errorMessage : String) : String :=
  if strContains errorMessage "401" ||
      strContains errorMessage "UNAUTHENTICATED" then
    "Authentication Failed: Invalid API Key."
  else if strContains errorMessage "429" ||
      strContains errorMessage "RESOURCE_EXHAUSTED" then
    "Rate Limit Exceeded: Please wait a moment."
  else if strContains errorMessage "SAFETY" ||
      strContains errorMessage "blocked" then
    "Content Error: Request blocked by safety filters."
  else "Generation Failed: " ++ errorMessage

/-- The host-page state touched by the synchronous prefix of
    `handleSubmit` (`src/App.tsx` lines 46-50, `src/unnamed/part_004`
    lines 58-62). -/
structure AppState where
  formState : DeRequestState
  loading : Bool
  response : Option String
  errors : List String
deriving DecidableEq, Repr

/-- Drops leading whitespace characters from a character list. -/
def dropWhileWS : List Char → List Char
  | [] => []
  | c :: cs => if c.isWhitespace then dropWhileWS cs else c :: cs

/-- The embedding of JavaScript `String.prototype.trim`, used by
    `handleSubmit` as `techRequirements.trim()`: strips whitespace from
    both ends. -/
def strTrim (s : String) : String :=
  ⟨(dropWhileWS ((dropWhileWS s.data.reverse).reverse))⟩

/-- The validation messages accumulated by `handleSubmit`
    (`src/App.tsx` lines 149-161, `src/unnamed/part_004` lines 259-271),
    in push order. -/
def validationErrors (fs : DeRequestState) : List String :=
  (if strTrim fs.techRequirements == "" then
      ["Technical Requirements are mandatory."] else []) ++
  (if fs.dataSources.isEmpty then
      ["At least one Data Source is required."] else []) ++
  (if fs.dataTargets.isEmpty then
      ["At least one Data Target is required."] else [])

/-- The synchronous validation gate of `handleSubmit` (`src/App.tsx`
    lines 148-171, `src/unnamed/part_004` lines 258-281): returns the
    updated page state and whether `generateSolution` is invoked. -/
def handleSubmitGate (st : AppState) : AppState × Bool :=
  let newErrors := validationErrors st.formState
  if 0 < newErrors.length then ({ st with errors := newErrors }, false)
  else ({ st with loading := true, errors := [], response := none }, true)

/-- A form state with an empty graph, used as a concrete test state. -/
def emptyForm : DeRequestState :=
  { techRequirements := ""
    productRequirements := ""
    existingTools := []
    dataSources := []
    transformationNodes := []
    dataTargets := []
    connections := [] }

/-- The `initialState` constant of `src/unnamed/part_004` (lines 16-55). -/
def initialState : DeRequestState :=
  { techRequirements := ""
    productRequirements := ""
    existingTools := ["BigQuery", "S3"]
    dataSources := [⟨"1", "MySQL", "payments_prod", "public",
      "transactions, users", "Relational", "2M rows", "Daily",
      some ⟨50, 50⟩⟩]
    transformationNodes := [⟨"t1", "Clean & Join", "dbt",
      "Clean nulls and join users with transactions", some ⟨350, 50⟩⟩]
    dataTargets := [⟨"10", "Redshift", "Columnar", "Day", some ⟨650, 50⟩⟩]
    connections := [⟨"c1", "1", "t1"⟩, ⟨"c2", "t1", "10"⟩] }

/-- A concrete editor state of the pan/zoom builder: the user is dragging
    source node "1" of `initialState`, grabbed at its top-left corner. -/
def testDragState : EditorState :=
  { viewport := initialViewport
    isPanning := false
    lastMouse := (0, 0)
    draggingId := some "1"
    dragOffset := (0, 0)
    hasMoved := false
    connectingSourceId := none
    mousePos := none
    form := initialState }

/-- A concrete editor state of the pan/zoom builder: a wire gesture from
    node "1" of `initialState` is in progress. -/
def testWireState : EditorState :=
  { viewport := initialViewport
    isPanning := false
    lastMouse := (0, 0)
    draggingId := none
    dragOffset := (0, 0)
    hasMoved := false
    connectingSourceId := some "1"
    mousePos := some (260, 100)
    form := initialState }

/-- A concrete editor state of the pan/zoom builder: a pan gesture is in
    progress, last seen at screen point (100, 40). -/
def testPanState : EditorState :=
  { viewport := { x := 7, y := -3, zoom := 2 }
    isPanning := true
    lastMouse := (100, 40)
    draggingId := none
    dragOffset := (0, 0)
    hasMoved := false
    connectingSourceId := none
    mousePos := none
    form := initialState }

/-- A concrete state of the simpler builder variant: source node "s1" is
    being dragged with grab offset (0, 0). -/
def simpleTestState : SimpleBuilderState :=
  { isExpanded := false
    draggingId := some "s1"
    dragOffset := (0, 0)
    hasMoved := false
    connectingSourceId := none
    mousePos := none
    sources := [⟨"s1", "MySQL", "db", "public", "t", "Relational", "1M",
      "Daily", some ⟨50, 50⟩⟩]
    targets := []
    connections := [] }


/-- The function `addConnection` on a self-loop is the identity. -/
theorem addConnection_self (fs : DeRequestState) (t f : String) :
    addConnection fs t t f = fs := by
  unfold addConnection
  rw [beq_self_eq_true]
  rfl

/-- The function `addConnection` is the identity when the ordered pair already occurs. -/
theorem addConnection_dup (fs : DeRequestState) (s t f : String)
    (hdup : fs.connections.any
      (fun c => c.sourceId == s && c.targetId == t) = true) :
    addConnection fs s t f = fs := by
  unfold addConnection
  cases hb : s == t
  · rw [hdup]; rfl
  · rfl

/-- The function `addConnection` appends the new edge when neither rejection fires. -/
theorem addConnection_app (fs : DeRequestState) (s t f : String)
    (hst : (s == t) = false)
    (hdup : fs.connections.any
      (fun c => c.sourceId == s && c.targetId == t) = false) :
    addConnection fs s t f =
      { fs with connections := fs.connections ++ [⟨f, s, t⟩] } := by
  unfold addConnection
  rw [hst, hdup]
  rfl

/-- The duplicate check of `addConnection`, as a proposition. -/
theorem any_pair_iff (conns : List Connection) (s t : String) :
    (conns.any (fun c => c.sourceId == s && c.targetId == t) = true) ↔
      ∃ c ∈ conns, c.sourceId = s ∧ c.targetId = t := by
  rw [List.any_eq_true]
  constructor
  · rintro ⟨c, hc, hp⟩
    rw [Bool.and_eq_true, beq_iff_eq, beq_iff_eq] at hp
    exact ⟨c, hc, hp⟩
  · rintro ⟨c, hc, h1, h2⟩
    refine ⟨c, hc, ?_⟩
    rw [Bool.and_eq_true, beq_iff_eq, beq_iff_eq]
    exact ⟨h1, h2⟩

/-- Claim C1 counterexample: `addConnection` does not check that its
    endpoints reference nodes of the graph.  On the empty graph, where
    neither "a" nor "b" resolves via `findNode`, the call is not a no-op:
    it appends a connection. -/
theorem addConnection_unknown_id_counterexample :
    findNode emptyForm "a" = none ∧ findNode emptyForm "b" = none ∧
    (addConnection emptyForm "a" "b" "cx").connections ≠
      emptyForm.connections := by
  refine ⟨rfl, rfl, ?_⟩
  decide

/-- Claim C1 (amended): `addConnection(sourceId, targetId)` is a no-op when
    `sourceId = targetId` or when a connection with the same ordered pair
    already exists (node existence of the endpoints is NOT checked);
    otherwise it appends exactly one connection with the fresh id and those
    endpoints.  Calling it twice with identical arguments equals calling it
    once, and from a state with no such edge and distinct endpoints the
    two calls leave exactly one connection with those endpoints. -/
theorem addConnection_spec (fs : DeRequestState) (s t f1 : String) :
    (s = t → addConnection fs s t f1 = fs) ∧
    ((∃ c ∈ fs.connections, c.sourceId = s ∧ c.targetId = t) →
        addConnection fs s t f1 = fs) ∧
    (s ≠ t → (∀ c ∈ fs.connections, ¬(c.sourceId = s ∧ c.targetId = t)) →
        (addConnection fs s t f1).connections =
          fs.connections ++ [⟨f1, s, t⟩]) ∧
    (∀ f2, addConnection (addConnection fs s t f1) s t f2 =
        addConnection fs s t f1) ∧
    (s ≠ t → (∀ c ∈ fs.connections, ¬(c.sourceId = s ∧ c.targetId = t)) →
        ∀ f2,
          ((addConnection (addConnection fs s t f1) s t f2).connections.countP
            (fun c => c.sourceId == s && c.targetId == t)) = 1) := by
  by_cases hst : s = t
  · subst hst
    refine ⟨fun _ => addConnection_self fs s f1,
      fun _ => addConnection_self fs s f1,
      fun h _ => absurd rfl h, fun f2 => ?_, fun h _ _ => absurd rfl h⟩
    rw [addConnection_self fs s f1, addConnection_self fs s f2]
  · have hbst : (s == t) = false := beq_eq_false_iff_ne.mpr hst
    cases hdup : fs.connections.any
        (fun c => c.sourceId == s && c.targetId == t) with
    | true =>
      have hfs : addConnection fs s t f1 = fs := addConnection_dup fs s t f1 hdup
      obtain ⟨c, hc, h1, h2⟩ := (any_pair_iff fs.connections s t).mp hdup
      refine ⟨fun h => absurd h hst, fun _ => hfs,
        fun _ hnone => absurd ⟨h1, h2⟩ (hnone c hc), fun f2 => ?_,
        fun _ hnone _ => absurd ⟨h1, h2⟩ (hnone c hc)⟩
      rw [hfs]
      exact addConnection_dup fs s t f2 hdup
    | false =>
      have happ : addConnection fs s t f1 =
          { fs with connections := fs.connections ++ [⟨f1, s, t⟩] } :=
        addConnection_app fs s t f1 hbst hdup
      have hany2 : ((addConnection fs s t f1).connections.any
          (fun c => c.sourceId == s && c.targetId == t)) = true := by
        rw [happ]
        show ((fs.connections ++ [(⟨f1, s, t⟩ : Connection)]).any
            (fun c => c.sourceId == s && c.targetId == t)) = true
        rw [List.any_append]
        simp
      have hsecond : ∀ f2, addConnection (addConnection fs s t f1) s t f2 =
          addConnection fs s t f1 :=
        fun f2 => addConnection_dup _ s t f2 hany2
      refine ⟨fun h => absurd h hst,
        fun hex => absurd ((any_pair_iff fs.connections s t).mpr hex)
          (by rw [hdup]; exact Bool.false_ne_true),
        fun _ _ => by rw [happ], hsecond, ?_⟩
      intro _ hnone f2
      rw [hsecond f2, happ]
      show ((fs.connections ++ [(⟨f1, s, t⟩ : Connection)]).countP
        (fun c => c.sourceId == s && c.targetId == t)) = 1
      rw [List.countP_append]
      have h0 : fs.connections.countP
          (fun c => c.sourceId == s && c.targetId == t) = 0 := by
        rw [List.countP_eq_zero]
        intro c hc hpc
        rw [Bool.and_eq_true, beq_iff_eq, beq_iff_eq] at hpc
        exact hnone c hc hpc
      rw [h0]
      simp [List.countP_cons]

/-- Witness for `addConnection_spec` at `initialState`: "1" and "10" are
    distinct, no (1,10) edge exists, and the call appends exactly that
    edge. -/
theorem addConnection_spec_witness :
    ("1" : String) ≠ "10" ∧
    (∀ c ∈ initialState.connections,
       ¬(c.sourceId = "1" ∧ c.targetId = "10")) ∧
    (addConnection initialState "1" "10" "w1").connections =
      initialState.connections ++ [⟨"w1", "1", "10"⟩] :=
  ⟨by decide, by decide,
    (addConnection_spec initialState "1" "10" "w1").2.2.1 (by decide)
      (by decide)⟩

/-- The function `findNode` succeeds exactly when one of the three typed lookups
    succeeds. -/
theorem findNode_isSome_eq (fs : DeRequestState) (j : String) :
    (findNode fs j).isSome =
      ((fs.dataSources.find? (fun s => s.id == j)).isSome ||
       (fs.transformationNodes.find? (fun t => t.id == j)).isSome ||
       (fs.dataTargets.find? (fun t => t.id == j)).isSome) := by
  unfold findNode
  cases h1 : fs.dataSources.find? (fun s => s.id == j) with
  | some s => simp [h1]
  | none =>
    cases h2 : fs.transformationNodes.find? (fun t => t.id == j) with
    | some t => simp [h1, h2]
    | none => simp [h1, h2]

/-- A successful id lookup survives filtering out a different id. -/
theorem find?_isSome_filter_ne {α : Type} (l : List α) (f : α → String)
    (j rid : String) (hne : j ≠ rid)
    (h : (l.find? (fun a => f a == j)).isSome = true) :
    ((l.filter (fun a => f a != rid)).find?
      (fun a => f a == j)).isSome = true := by
  rw [List.find?_isSome] at h ⊢
  obtain ⟨x, hx, hpx⟩ := h
  refine ⟨x, List.mem_filter.mpr ⟨hx, ?_⟩, hpx⟩
  have hfx : f x = j := by simpa using hpx
  simp [hfx, hne]

/-- Membership in the cascade-filtered connection list. -/
theorem mem_cascade_filter {conns : List Connection} {nodeId : String}
    {c : Connection}
    (hc : c ∈ conns.filter
      (fun c => c.sourceId != nodeId && c.targetId != nodeId)) :
    c ∈ conns ∧ c.sourceId ≠ nodeId ∧ c.targetId ≠ nodeId := by
  obtain ⟨h1, h2⟩ := List.mem_filter.mp hc
  rw [Bool.and_eq_true, bne_iff_ne, bne_iff_ne] at h2
  exact ⟨h1, h2⟩

/-- Resolution of an id different from the removed one is preserved by
    `removeSourceNode`. -/
theorem findNode_removeSource (fs : DeRequestState) (rid j : String)
    (hne : j ≠ rid) (h : (findNode fs j).isSome = true) :
    (findNode (removeSourceNode fs rid) j).isSome = true := by
  rw [findNode_isSome_eq] at h ⊢
  show (((fs.dataSources.filter (fun node => node.id != rid)).find?
      (fun s => s.id == j)).isSome ||
    (fs.transformationNodes.find? (fun t => t.id == j)).isSome ||
    (fs.dataTargets.find? (fun t => t.id == j)).isSome) = true
  rw [Bool.or_eq_true, Bool.or_eq_true] at h ⊢
  rcases h with (h | h) | h
  · exact Or.inl (Or.inl (find?_isSome_filter_ne fs.dataSources
      (fun n => n.id) j rid hne h))
  · exact Or.inl (Or.inr h)
  · exact Or.inr h

/-- Resolution of an id different from the removed one is preserved by
    `removeTransformationNode`. -/
theorem findNode_removeTransformation (fs : DeRequestState) (rid j : String)
    (hne : j ≠ rid) (h : (findNode fs j).isSome = true) :
    (findNode (removeTransformationNode fs rid) j).isSome = true := by
  rw [findNode_isSome_eq] at h ⊢
  show ((fs.dataSources.find? (fun s => s.id == j)).isSome ||
    ((fs.transformationNodes.filter (fun node => node.id != rid)).find?
      (fun t => t.id == j)).isSome ||
    (fs.dataTargets.find? (fun t => t.id == j)).isSome) = true
  rw [Bool.or_eq_true, Bool.or_eq_true] at h ⊢
  rcases h with (h | h) | h
  · exact Or.inl (Or.inl h)
  · exact Or.inl (Or.inr (find?_isSome_filter_ne fs.transformationNodes
      (fun n => n.id) j rid hne h))
  · exact Or.inr h

/-- Resolution of an id different from the removed one is preserved by
    `removeTargetNode`. -/
theorem findNode_removeTarget (fs : DeRequestState) (rid j : String)
    (hne : j ≠ rid) (h : (findNode fs j).isSome = true) :
    (findNode (removeTargetNode fs rid) j).isSome = true := by
  rw [findNode_isSome_eq] at h ⊢
  show ((fs.dataSources.find? (fun s => s.id == j)).isSome ||
    (fs.transformationNodes.find? (fun t => t.id == j)).isSome ||
    ((fs.dataTargets.filter (fun node => node.id != rid)).find?
      (fun t => t.id == j)).isSome) = true
  rw [Bool.or_eq_true, Bool.or_eq_true] at h ⊢
  rcases h with (h | h) | h
  · exact Or.inl (Or.inl h)
  · exact Or.inl (Or.inr h)
  · exact Or.inr (find?_isSome_filter_ne fs.dataTargets
      (fun n => n.id) j rid hne h)

/-- Claim C2: each node-removal operation deletes the node from its
    collection and cascades: afterwards no remaining connection references
    the removed id on either endpoint, and if every connection's endpoints
    resolved via `findNode` before the removal, every remaining
    connection's endpoints still resolve afterwards (no orphan edge). -/
theorem removeNode_cascade (fs : DeRequestState) (nodeId : String) :
    ((∀ n ∈ (removeSourceNode fs nodeId).dataSources, n.id ≠ nodeId) ∧
     (∀ c ∈ (removeSourceNode fs nodeId).connections,
        c.sourceId ≠ nodeId ∧ c.targetId ≠ nodeId) ∧
     ((∀ c ∈ fs.connections, (findNode fs c.sourceId).isSome = true ∧
         (findNode fs c.targetId).isSome = true) →
       ∀ c ∈ (removeSourceNode fs nodeId).connections,
         (findNode (removeSourceNode fs nodeId) c.sourceId).isSome = true ∧
         (findNode (removeSourceNode fs nodeId) c.targetId).isSome = true)) ∧
    ((∀ n ∈ (removeTransformationNode fs nodeId).transformationNodes,
        n.id ≠ nodeId) ∧
     (∀ c ∈ (removeTransformationNode fs nodeId).connections,
        c.sourceId ≠ nodeId ∧ c.targetId ≠ nodeId) ∧
     ((∀ c ∈ fs.connections, (findNode fs c.sourceId).isSome = true ∧
         (findNode fs c.targetId).isSome = true) →
       ∀ c ∈ (removeTransformationNode fs nodeId).connections,
         (findNode (removeTransformationNode fs nodeId) c.sourceId).isSome
           = true ∧
         (findNode (removeTransformationNode fs nodeId) c.targetId).isSome
           = true)) ∧
    ((∀ n ∈ (removeTargetNode fs nodeId).dataTargets, n.id ≠ nodeId) ∧
     (∀ c ∈ (removeTargetNode fs nodeId).connections,
        c.sourceId ≠ nodeId ∧ c.targetId ≠ nodeId) ∧
     ((∀ c ∈ fs.connections, (findNode fs c.sourceId).isSome = true ∧
         (findNode fs c.targetId).isSome = true) →
       ∀ c ∈ (removeTargetNode fs nodeId).connections,
         (findNode (removeTargetNode fs nodeId) c.sourceId).isSome = true ∧
         (findNode (removeTargetNode fs nodeId) c.targetId).isSome = true)) := by
  refine ⟨⟨?_, ?_, ?_⟩, ⟨?_, ?_, ?_⟩, ⟨?_, ?_, ?_⟩⟩
  · intro n hn
    have h := List.mem_filter.mp hn
    exact bne_iff_ne.mp h.2
  · intro c hc
    exact (mem_cascade_filter hc).2
  · intro hres c hc
    obtain ⟨hmem, hs, ht⟩ := mem_cascade_filter hc
    obtain ⟨h1, h2⟩ := hres c hmem
    exact ⟨findNode_removeSource fs nodeId c.sourceId hs h1,
      findNode_removeSource fs nodeId c.targetId ht h2⟩
  · intro n hn
    have h := List.mem_filter.mp hn
    exact bne_iff_ne.mp h.2
  · intro c hc
    exact (mem_cascade_filter hc).2
  · intro hres c hc
    obtain ⟨hmem, hs, ht⟩ := mem_cascade_filter hc
    obtain ⟨h1, h2⟩ := hres c hmem
    exact ⟨findNode_removeTransformation fs nodeId c.sourceId hs h1,
      findNode_removeTransformation fs nodeId c.targetId ht h2⟩
  · intro n hn
    have h := List.mem_filter.mp hn
    exact bne_iff_ne.mp h.2
  · intro c hc
    exact (mem_cascade_filter hc).2
  · intro hres c hc
    obtain ⟨hmem, hs, ht⟩ := mem_cascade_filter hc
    obtain ⟨h1, h2⟩ := hres c hmem
    exact ⟨findNode_removeTarget fs nodeId c.sourceId hs h1,
      findNode_removeTarget fs nodeId c.targetId ht h2⟩

/-- Witness for `removeNode_cascade` at `initialState` removing node "1":
    the well-formedness hypothesis holds there, and the remaining
    connections all resolve after the removal. -/
theorem removeNode_cascade_witness :
    (∀ c ∈ initialState.connections,
       (findNode initialState c.sourceId).isSome = true ∧
       (findNode initialState c.targetId).isSome = true) ∧
    (∀ c ∈ (removeSourceNode initialState "1").connections,
       (findNode (removeSourceNode initialState "1") c.sourceId).isSome
         = true ∧
       (findNode (removeSourceNode initialState "1") c.targetId).isSome
         = true) :=
  ⟨by decide, (removeNode_cascade initialState "1").1.2.2 (by decide)⟩

/-- Claim C3: wheel zoom is a fixed point of `screenToWorld` at the
    anchor.  For any viewport with nonzero zoom, after `handleWheel` the
    world point under the cursor is exactly unchanged (exact rational
    arithmetic). -/
theorem wheel_zoom_fixed_point (v : Viewport) (rl rt cx cy dy : ℚ)
    (h : v.zoom ≠ 0) :
    screenToWorld (handleWheel v rl rt cx cy dy) rl rt cx cy =
      screenToWorld v rl rt cx cy := by
  have hle : (1 : ℚ) / 10 ≤
      max (1 / 10) (min 5 (v.zoom * (1 + dy * (-(1 / 1000) : ℚ)))) :=
    le_max_left _ _
  have hnz : max (1 / 10) (min 5 (v.zoom * (1 + dy * (-(1 / 1000) : ℚ)))) ≠ 0 :=
    ne_of_gt (lt_of_lt_of_le (by norm_num) hle)
  simp only [handleWheel, screenToWorld, Prod.mk.injEq]
  constructor
  · field_simp
    ring
  · field_simp
    ring

/-- Witness for `wheel_zoom_fixed_point` at a concrete viewport and
    event. -/
theorem wheel_zoom_fixed_point_witness :
    (Viewport.mk 3 4 2).zoom ≠ 0 ∧
    screenToWorld (handleWheel ⟨3, 4, 2⟩ 1 2 10 20 100) 1 2 10 20 =
      screenToWorld ⟨3, 4, 2⟩ 1 2 10 20 :=
  ⟨by norm_num, wheel_zoom_fixed_point ⟨3, 4, 2⟩ 1 2 10 20 100 (by norm_num)⟩

/-- Every single viewport operation keeps the zoom factor within
    [0.1, 5]. -/
theorem applyViewOp_zoom_mem (v : Viewport) (op : ViewOp)
    (h1 : 1 / 10 ≤ v.zoom) (h2 : v.zoom ≤ 5) :
    1 / 10 ≤ (applyViewOp v op).zoom ∧ (applyViewOp v op).zoom ≤ 5 := by
  cases op with
  | wheel rl rt cx cy dy =>
    simp only [applyViewOp, handleWheel]
    exact ⟨le_max_left _ _, max_le (by norm_num) (min_le_left _ _)⟩
  | zoomIn rw rh =>
    simp only [applyViewOp, handleZoomIn]
    refine ⟨le_min (by norm_num) (by linarith), min_le_left _ _⟩
  | zoomOut rw rh =>
    simp only [applyViewOp, handleZoomOut]
    have hdiv : v.zoom / (6 / 5) = v.zoom * (5 / 6) := by ring
    refine ⟨le_max_left _ _, max_le (by norm_num) ?_⟩
    rw [hdiv]
    linarith
  | pan dx dy =>
    exact ⟨h1, h2⟩
  | reset =>
    simp only [applyViewOp, resetView]
    norm_num

/-- Claim C4: starting from the initial viewport, every sequence of wheel
    zooms, zoom-in/zoom-out button presses, pan moves and resets leaves
    the zoom factor in the closed interval [0.1, 5]. -/
theorem viewport_zoom_invariant (ops : List ViewOp) :
    1 / 10 ≤ (ops.foldl applyViewOp initialViewport).zoom ∧
      (ops.foldl applyViewOp initialViewport).zoom ≤ 5 := by
  have main : ∀ (l : List ViewOp) (v : Viewport),
      1 / 10 ≤ v.zoom → v.zoom ≤ 5 →
      1 / 10 ≤ (l.foldl applyViewOp v).zoom ∧
        (l.foldl applyViewOp v).zoom ≤ 5 := by
    intro l
    induction l with
    | nil => intro v h1 h2; exact ⟨h1, h2⟩
    | cons op rest ih =>
      intro v h1 h2
      have h := applyViewOp_zoom_mem v op h1 h2
      exact ih (applyViewOp v op) h.1 h.2
  exact main ops initialViewport (by norm_num [initialViewport])
    (by norm_num [initialViewport])

/-- Claim C5 counterexample: at maximal zoom 5 (which lies in [0.1, 5]),
    zoom-in clamps to 5 and the following zoom-out lands at 25/6, so the
    round trip does not restore the original zoom. -/
theorem zoom_roundtrip_counterexample :
    (1 / 10 ≤ (Viewport.mk 0 0 5).zoom ∧ (Viewport.mk 0 0 5).zoom ≤ 5) ∧
    (handleZoomOut (handleZoomIn ⟨0, 0, 5⟩ 800 600) 800 600).zoom ≠
      (Viewport.mk 0 0 5).zoom := by
  refine ⟨⟨by norm_num, by norm_num⟩, ?_⟩
  norm_num [handleZoomIn, handleZoomOut]

/-- Claim C5 (amended): for every viewport whose zoom lies in [0.1, 5]
    and is NOT clamped by the upper bound on zoom-in (zoom * 1.2 ≤ 5),
    zoom-in by 1.2 followed by zoom-out by 1/1.2 at the same canvas-center
    anchor restores the original viewport exactly (zoom and both
    offsets). -/
theorem zoom_roundtrip_restores (v : Viewport) (rw rh : ℚ)
    (h1 : 1 / 10 ≤ v.zoom) (h2 : v.zoom * (6 / 5) ≤ 5) :
    handleZoomOut (handleZoomIn v rw rh) rw rh = v := by
  obtain ⟨vx, vy, vz⟩ := v
  simp only at h1 h2
  have hz : vz ≠ 0 := ne_of_gt (lt_of_lt_of_le (by norm_num) h1)
  simp only [handleZoomIn, handleZoomOut]
  rw [min_eq_right h2]
  have hcancel : vz * (6 / 5) / (6 / 5) = vz := by field_simp
  rw [hcancel, max_eq_right h1]
  have hz65 : vz * (6 / 5) ≠ 0 := by
    intro hcontra
    exact hz (by linarith [mul_eq_zero.mp hcontra])
  rw [Viewport.mk.injEq]
  refine ⟨?_, ?_, rfl⟩
  · field_simp
    ring
  · field_simp
    ring

/-- Witness for `zoom_roundtrip_restores` at a concrete viewport. -/
theorem zoom_roundtrip_restores_witness :
    (1 / 10 ≤ (Viewport.mk 3 4 2).zoom ∧ (Viewport.mk 3 4 2).zoom * (6 / 5) ≤ 5) ∧
    handleZoomOut (handleZoomIn ⟨3, 4, 2⟩ 800 600) 800 600 = ⟨3, 4, 2⟩ :=
  ⟨⟨by norm_num, by norm_num⟩,
    zoom_roundtrip_restores ⟨3, 4, 2⟩ 800 600 (by norm_num) (by norm_num)⟩

/-- After `updateSourcePosition`, every source carrying the updated id has
    the new position. -/
theorem updateSourcePosition_mem {fs : DeRequestState} {dId : String}
    {p : NodePosition} {n : DataSource}
    (hn : n ∈ (updateSourcePosition fs dId p).dataSources)
    (hid : n.id = dId) : n.position = some p := by
  simp only [updateSourcePosition] at hn
  obtain ⟨m, hm, hmn⟩ := List.mem_map.mp hn
  by_cases hmid : (m.id == dId) = true
  · rw [if_pos hmid] at hmn
    rw [← hmn]
  · rw [if_neg hmid] at hmn
    rw [← hmn] at hid
    exact absurd (beq_iff_eq.mpr hid) hmid

/-- After `updateTransformationPosition`, every transformation carrying
    the updated id has the new position. -/
theorem updateTransformationPosition_mem {fs : DeRequestState} {dId : String}
    {p : NodePosition} {n : TransformationNode}
    (hn : n ∈ (updateTransformationPosition fs dId p).transformationNodes)
    (hid : n.id = dId) : n.position = some p := by
  simp only [updateTransformationPosition] at hn
  obtain ⟨m, hm, hmn⟩ := List.mem_map.mp hn
  by_cases hmid : (m.id == dId) = true
  · rw [if_pos hmid] at hmn
    rw [← hmn]
  · rw [if_neg hmid] at hmn
    rw [← hmn] at hid
    exact absurd (beq_iff_eq.mpr hid) hmid

/-- After `updateTargetPosition`, every target carrying the updated id has
    the new position. -/
theorem updateTargetPosition_mem {fs : DeRequestState} {dId : String}
    {p : NodePosition} {n : DataTarget}
    (hn : n ∈ (updateTargetPosition fs dId p).dataTargets)
    (hid : n.id = dId) : n.position = some p := by
  simp only [updateTargetPosition] at hn
  obtain ⟨m, hm, hmn⟩ := List.mem_map.mp hn
  by_cases hmid : (m.id == dId) = true
  · rw [if_pos hmid] at hmn
    rw [← hmn]
  · rw [if_neg hmid] at hmn
    rw [← hmn] at hid
    exact absurd (beq_iff_eq.mpr hid) hmid

/-- Claim C6 (amended, pan/zoom builder variant): while dragging, a move
    event stores `worldCursor - grabOffset` clamped only from below at
    -500 on each axis, whichever typed collection holds the dragged node;
    there is no upper clamp, so whenever both components are at least -500
    the stored position equals `worldCursor - grabOffset` exactly.  (The
    simpler builder variant additionally clamps from above, see the
    counterexample.) -/
theorem drag_move_clamped_below
    (st : EditorState) (rl rt cx cy : ℚ) (dId : String)
    (hpan : st.isPanning = false)
    (hwire : st.connectingSourceId = none)
    (hdrag : st.draggingId = some dId) :
    ((st.form.dataSources.any (fun s => s.id == dId)) = true →
       ∀ n ∈ (onMouseMove st rl rt cx cy).form.dataSources, n.id = dId →
         n.position = some
           ⟨max (-500) ((screenToWorld st.viewport rl rt cx cy).1 -
              st.dragOffset.1),
            max (-500) ((screenToWorld st.viewport rl rt cx cy).2 -
              st.dragOffset.2)⟩) ∧
    ((st.form.dataSources.any (fun s => s.id == dId)) = false →
     (st.form.transformationNodes.any (fun t => t.id == dId)) = true →
       ∀ n ∈ (onMouseMove st rl rt cx cy).form.transformationNodes,
         n.id = dId →
         n.position = some
           ⟨max (-500) ((screenToWorld st.viewport rl rt cx cy).1 -
              st.dragOffset.1),
            max (-500) ((screenToWorld st.viewport rl rt cx cy).2 -
              st.dragOffset.2)⟩) ∧
    ((st.form.dataSources.any (fun s => s.id == dId)) = false →
     (st.form.transformationNodes.any (fun t => t.id == dId)) = false →
     (st.form.dataTargets.any (fun t => t.id == dId)) = true →
       ∀ n ∈ (onMouseMove st rl rt cx cy).form.dataTargets, n.id = dId →
         n.position = some
           ⟨max (-500) ((screenToWorld st.viewport rl rt cx cy).1 -
              st.dragOffset.1),
            max (-500) ((screenToWorld st.viewport rl rt cx cy).2 -
              st.dragOffset.2)⟩) ∧
    (-500 ≤ (screenToWorld st.viewport rl rt cx cy).1 - st.dragOffset.1 →
     -500 ≤ (screenToWorld st.viewport rl rt cx cy).2 - st.dragOffset.2 →
       (⟨max (-500) ((screenToWorld st.viewport rl rt cx cy).1 -
            st.dragOffset.1),
          max (-500) ((screenToWorld st.viewport rl rt cx cy).2 -
            st.dragOffset.2)⟩ : NodePosition) =
         ⟨(screenToWorld st.viewport rl rt cx cy).1 - st.dragOffset.1,
          (screenToWorld st.viewport rl rt cx cy).2 - st.dragOffset.2⟩) := by
  refine ⟨?_, ?_, ?_, ?_⟩
  · intro hs n hn hid
    have hred : (onMouseMove st rl rt cx cy).form =
        updateSourcePosition st.form dId
          ⟨max (-500) ((screenToWorld st.viewport rl rt cx cy).1 -
             st.dragOffset.1),
           max (-500) ((screenToWorld st.viewport rl rt cx cy).2 -
             st.dragOffset.2)⟩ := by
      simp [onMouseMove, hpan, hwire, hdrag, hs]
    rw [hred] at hn
    exact updateSourcePosition_mem hn hid
  · intro hs ht n hn hid
    have hred : (onMouseMove st rl rt cx cy).form =
        updateTransformationPosition st.form dId
          ⟨max (-500) ((screenToWorld st.viewport rl rt cx cy).1 -
             st.dragOffset.1),
           max (-500) ((screenToWorld st.viewport rl rt cx cy).2 -
             st.dragOffset.2)⟩ := by
      simp [onMouseMove, hpan, hwire, hdrag, hs, ht]
    rw [hred] at hn
    exact updateTransformationPosition_mem hn hid
  · intro hs ht hg n hn hid
    have hred : (onMouseMove st rl rt cx cy).form =
        updateTargetPosition st.form dId
          ⟨max (-500) ((screenToWorld st.viewport rl rt cx cy).1 -
             st.dragOffset.1),
           max (-500) ((screenToWorld st.viewport rl rt cx cy).2 -
             st.dragOffset.2)⟩ := by
      simp [onMouseMove, hpan, hwire, hdrag, hs, ht, hg]
    rw [hred] at hn
    exact updateTargetPosition_mem hn hid
  · intro hx hy
    rw [max_eq_right hx, max_eq_right hy]

/-- Witness for `drag_move_clamped_below`: dragging source "1" of
    `initialState` with the cursor at (700, 90) stores exactly (700, 90). -/
theorem drag_move_clamped_below_witness :
    testDragState.isPanning = false ∧
    testDragState.connectingSourceId = none ∧
    testDragState.draggingId = some "1" ∧
    (testDragState.form.dataSources.any (fun s => s.id == "1")) = true ∧
    (∀ n ∈ (onMouseMove testDragState 0 0 700 90).form.dataSources,
       n.id = "1" → n.position = some ⟨700, 90⟩) := by
  refine ⟨rfl, rfl, rfl, by decide, ?_⟩
  intro n hn hid
  have h := (drag_move_clamped_below testDragState 0 0 700 90 "1"
    rfl rfl rfl).1 (by decide) n hn hid
  rw [h]
  have e1 : (screenToWorld testDragState.viewport 0 0 700 90).1 -
      testDragState.dragOffset.1 = 700 := by
    norm_num [screenToWorld, testDragState, initialViewport]
  have e2 : (screenToWorld testDragState.viewport 0 0 700 90).2 -
      testDragState.dragOffset.2 = 90 := by
    norm_num [screenToWorld, testDragState, initialViewport]
  rw [e1, e2, max_eq_right (by norm_num : (-500 : ℚ) ≤ 700),
    max_eq_right (by norm_num : (-500 : ℚ) ≤ 90)]

/-- Claim C6 counterexample (simpler builder variant,
    `src/components/VisualBuilder.tsx`): with a canvas of width 800 the
    move clamps the dragged node to x = 800 - 200 = 600, so for a cursor
    far to the right the stored position is NOT `worldCursor - grabOffset`
    (which would be x = 1000); an upper bound does exist in this
    variant. -/
theorem drag_upper_clamp_counterexample :
    ((simpleOnMouseMove simpleTestState 0 0 800 600 1000 90).sources.map
       (fun n => n.position)) = [some ⟨600, 90⟩] ∧
    (⟨600, 90⟩ : NodePosition) ≠ ⟨1000 - 0, 90 - 0⟩ := by
  constructor
  · norm_num [simpleOnMouseMove, simpleTestState, min_def, max_def]
  · norm_num [NodePosition.mk.injEq]

/-- Claim C7: a wire gesture in progress (`Connecting(a)`) that is
    released anywhere other than a different node's input anchor produces
    no new connection and returns the wire state machine to idle.
    Release over empty canvas, a node body or an output handle bubbles to
    `onMouseUp`; release over the source node's own input anchor reaches
    `endWiring` with `targetId = a`; in both cases the connection list is
    untouched and both `connectingSourceId` and `mousePos` are cleared. -/
theorem wire_cancel_no_connection (st : EditorState)
    (a targetId freshId : String)
    (hconn : st.connectingSourceId = some a) :
    ((onMouseUp st).form.connections = st.form.connections ∧
     (onMouseUp st).connectingSourceId = none ∧
     (onMouseUp st).mousePos = none) ∧
    (targetId = a →
      (endWiring st targetId freshId).form.connections =
        st.form.connections ∧
      (endWiring st targetId freshId).connectingSourceId = none ∧
      (endWiring st targetId freshId).mousePos = none) := by
  refine ⟨⟨rfl, rfl, rfl⟩, ?_⟩
  intro h
  subst h
  refine ⟨?_, rfl, rfl⟩
  simp [endWiring, hconn]

/-- Witness for `wire_cancel_no_connection` at `testWireState` (wiring
    from node "1"), released over node "1" itself. -/
theorem wire_cancel_no_connection_witness :
    testWireState.connectingSourceId = some "1" ∧
    (endWiring testWireState "1" "w2").form.connections =
      testWireState.form.connections ∧
    (endWiring testWireState "1" "w2").connectingSourceId = none ∧
    (onMouseUp testWireState).form.connections =
      testWireState.form.connections :=
  ⟨rfl,
    ((wire_cancel_no_connection testWireState "1" "1" "w2" rfl).2 rfl).1,
    ((wire_cancel_no_connection testWireState "1" "1" "w2" rfl).2 rfl).2.1,
    (wire_cancel_no_connection testWireState "1" "1" "w2" rfl).1.1⟩

/-- Two strings whose underlying character lists start with different
    characters are different. -/
theorem string_head_ne {s t : String} {a b : Char} {l1 l2 : List Char}
    (hs : s.data = a :: l1) (ht : t.data = b :: l2) (hab : a ≠ b) :
    s ≠ t := by
  intro h
  subst h
  rw [ht] at hs
  injection hs with h1 _
  exact hab h1.symm

/-- A "Generation Failed: "-prefixed message never equals the fixed
    authentication message. -/
theorem gen_ne_auth (m : String) :
    ("Generation Failed: " ++ m) ≠
      "Authentication Failed: Invalid API Key." := by
  have hs : ("Generation Failed: " ++ m).data =
      'G' :: ("eneration Failed: ".data ++ m.data) := by
    rw [String.data_append, show ("Generation Failed: " : String).data =
      'G' :: "eneration Failed: ".data from rfl, List.cons_append]
  have ht : ("Authentication Failed: Invalid API Key." : String).data =
      'A' :: "uthentication Failed: Invalid API Key.".data := rfl
  exact string_head_ne hs ht (by decide)

/-- A "Generation Failed: "-prefixed message never equals the fixed
    rate-limit message. -/
theorem gen_ne_rate (m : String) :
    ("Generation Failed: " ++ m) ≠
      "Rate Limit Exceeded: Please wait a moment." := by
  have hs : ("Generation Failed: " ++ m).data =
      'G' :: ("eneration Failed: ".data ++ m.data) := by
    rw [String.data_append, show ("Generation Failed: " : String).data =
      'G' :: "eneration Failed: ".data from rfl, List.cons_append]
  have ht : ("Rate Limit Exceeded: Please wait a moment." : String).data =
      'R' :: "ate Limit Exceeded: Please wait a moment.".data := rfl
  exact string_head_ne hs ht (by decide)

/-- A "Generation Failed: "-prefixed message never equals the fixed
    safety-filter message. -/
theorem gen_ne_safety (m : String) :
    ("Generation Failed: " ++ m) ≠
      "Content Error: Request blocked by safety filters." := by
  have hs : ("Generation Failed: " ++ m).data =
      'G' :: ("eneration Failed: ".data ++ m.data) := by
    rw [String.data_append, show ("Generation Failed: " : String).data =
      'G' :: "eneration Failed: ".data from rfl, List.cons_append]
  have ht : ("Content Error: Request blocked by safety filters." :
      String).data =
      'C' :: "ontent Error: Request blocked by safety filters.".data := rfl
  exact string_head_ne hs ht (by decide)

/-- Claim C8: `formatError` reports exactly one categorized message: the
    authentication message iff the error message contains "401" or
    "UNAUTHENTICATED" (checked first); otherwise the rate-limit message
    iff it contains "429" or "RESOURCE_EXHAUSTED"; otherwise the safety
    message iff it contains "SAFETY" or "blocked"; and otherwise
    "Generation Failed: " followed by the original message. -/
theorem formatError_categories (m : String) :
    (formatError m = "Authentication Failed: Invalid API Key." ↔
       (strContains m "401" || strContains m "UNAUTHENTICATED") = true) ∧
    ((strContains m "401" || strContains m "UNAUTHENTICATED") = false →
      (formatError m = "Rate Limit Exceeded: Please wait a moment." ↔
        (strContains m "429" || strContains m "RESOURCE_EXHAUSTED")
          = true)) ∧
    ((strContains m "401" || strContains m "UNAUTHENTICATED") = false →
     (strContains m "429" || strContains m "RESOURCE_EXHAUSTED") = false →
      (formatError m = "Content Error: Request blocked by safety filters." ↔
        (strContains m "SAFETY" || strContains m "blocked") = true)) ∧
    ((strContains m "401" || strContains m "UNAUTHENTICATED") = false →
     (strContains m "429" || strContains m "RESOURCE_EXHAUSTED") = false →
     (strContains m "SAFETY" || strContains m "blocked") = false →
      formatError m = "Generation Failed: " ++ m) := by
  cases h1 : (strContains m "401" || strContains m "UNAUTHENTICATED") with
  | true =>
    have hf : formatError m = "Authentication Failed: Invalid API Key." := by
      unfold formatError
      rw [h1]
      rfl
    refine ⟨?_, fun hcontra => absurd hcontra (by decide),
      fun hcontra _ => absurd hcontra (by decide),
      fun hcontra _ _ => absurd hcontra (by decide)⟩
    rw [hf]
    simp
  | false =>
    cases h2 : (strContains m "429" || strContains m "RESOURCE_EXHAUSTED") with
    | true =>
      have hf : formatError m =
          "Rate Limit Exceeded: Please wait a moment." := by
        unfold formatError
        rw [h1, h2]
        rfl
      refine ⟨?_, fun _ => ?_, fun _ hcontra => absurd hcontra (by decide),
        fun _ hcontra _ => absurd hcontra (by decide)⟩
      · rw [hf]
        constructor
        · intro he
          exact absurd he (by decide)
        · intro hc
          exact absurd hc (by decide)
      · rw [hf]
        simp
    | false =>
      cases h3 : (strContains m "SAFETY" || strContains m "blocked") with
      | true =>
        have hf : formatError m =
            "Content Error: Request blocked by safety filters." := by
          unfold formatError
          rw [h1, h2, h3]
          rfl
        refine ⟨?_, fun _ => ?_, fun _ _ => ?_,
          fun _ _ hcontra => absurd hcontra (by decide)⟩
        · rw [hf]
          constructor
          · intro he
            exact absurd he (by decide)
          · intro hc
            exact absurd hc (by decide)
        · rw [hf]
          constructor
          · intro he
            exact absurd he (by decide)
          · intro hc
            exact absurd hc (by decide)
        · rw [hf]
          simp
      | false =>
        have hf : formatError m = "Generation Failed: " ++ m := by
          unfold formatError
          rw [h1, h2, h3]
          rfl
        refine ⟨?_, fun _ => ?_, fun _ _ => ?_, fun _ _ _ => hf⟩
        · rw [hf]
          constructor
          · intro he
            exact absurd he (gen_ne_auth m)
          · intro hc
            exact absurd hc (by decide)
        · rw [hf]
          constructor
          · intro he
            exact absurd he (gen_ne_rate m)
          · intro hc
            exact absurd hc (by decide)
        · rw [hf]
          constructor
          · intro he
            exact absurd he (gen_ne_safety m)
          · intro hc
            exact absurd hc (by decide)

/-- Witness for `formatError_categories` on the message "boom": no
    category matches and the fallback message is produced. -/
theorem formatError_categories_witness :
    (strContains "boom" "401" || strContains "boom" "UNAUTHENTICATED")
      = false ∧
    (strContains "boom" "429" || strContains "boom" "RESOURCE_EXHAUSTED")
      = false ∧
    (strContains "boom" "SAFETY" || strContains "boom" "blocked") = false ∧
    formatError "boom" = "Generation Failed: " ++ "boom" :=
  ⟨by decide, by decide, by decide,
    (formatError_categories "boom").2.2.2 (by decide) (by decide)
      (by decide)⟩

/-- Claim C9: while panning, a move event changes only the viewport
    offsets — by exactly the pixel deltas against the last mouse position —
    and leaves the zoom factor and the whole graph form state (hence every
    node's stored position) unchanged. -/
theorem pan_frame_property (st : EditorState) (rl rt cx cy : ℚ)
    (hpan : st.isPanning = true) :
    (onMouseMove st rl rt cx cy).viewport.x =
      st.viewport.x + (cx - st.lastMouse.1) ∧
    (onMouseMove st rl rt cx cy).viewport.y =
      st.viewport.y + (cy - st.lastMouse.2) ∧
    (onMouseMove st rl rt cx cy).viewport.zoom = st.viewport.zoom ∧
    (onMouseMove st rl rt cx cy).form = st.form ∧
    (onMouseMove st rl rt cx cy).draggingId = st.draggingId ∧
    (onMouseMove st rl rt cx cy).connectingSourceId =
      st.connectingSourceId := by
  simp [onMouseMove, hpan]

/-- Witness for `pan_frame_property` at `testPanState` with the cursor
    moved to (130, 25). -/
theorem pan_frame_property_witness :
    testPanState.isPanning = true ∧
    (onMouseMove testPanState 0 0 130 25).viewport.x = 7 + (130 - 100) ∧
    (onMouseMove testPanState 0 0 130 25).viewport.zoom = 2 ∧
    (onMouseMove testPanState 0 0 130 25).form = testPanState.form :=
  ⟨rfl,
    (pan_frame_property testPanState 0 0 130 25 rfl).1,
    (pan_frame_property testPanState 0 0 130 25 rfl).2.2.1,
    (pan_frame_property testPanState 0 0 130 25 rfl).2.2.2.1⟩

/-- Claim C10: the generation call of `handleSubmit` is made only when the
    trimmed technical requirements are non-empty and both node lists are
    non-empty; when any check fails, exactly the corresponding error
    messages are recorded (one per violated condition), no generation
    request is issued, and the form state is unchanged. -/
theorem submit_validation_gate (st : AppState) :
    ((handleSubmitGate st).2 = true ↔
       (strTrim st.formState.techRequirements ≠ "" ∧
        st.formState.dataSources ≠ [] ∧ st.formState.dataTargets ≠ [])) ∧
    (handleSubmitGate st).1.formState = st.formState ∧
    ((handleSubmitGate st).2 = false →
       (handleSubmitGate st).1.errors = validationErrors st.formState ∧
       ("Technical Requirements are mandatory." ∈
           (handleSubmitGate st).1.errors ↔
         strTrim st.formState.techRequirements = "") ∧
       ("At least one Data Source is required." ∈
           (handleSubmitGate st).1.errors ↔
         st.formState.dataSources = []) ∧
       ("At least one Data Target is required." ∈
           (handleSubmitGate st).1.errors ↔
         st.formState.dataTargets = [])) := by
  by_cases h1 : strTrim st.formState.techRequirements = ""
  · by_cases h2 : st.formState.dataSources = []
    · by_cases h3 : st.formState.dataTargets = []
      · simp [handleSubmitGate, validationErrors, h1, h2, h3]
      · simp [handleSubmitGate, validationErrors, h1, h2, h3]
    · by_cases h3 : st.formState.dataTargets = []
      · simp [handleSubmitGate, validationErrors, h1, h2, h3]
      · simp [handleSubmitGate, validationErrors, h1, h2, h3]
  · by_cases h2 : st.formState.dataSources = []
    · by_cases h3 : st.formState.dataTargets = []
      · simp [handleSubmitGate, validationErrors, h1, h2, h3]
      · simp [handleSubmitGate, validationErrors, h1, h2, h3]
    · by_cases h3 : st.formState.dataTargets = []
      · simp [handleSubmitGate, validationErrors, h1, h2, h3]
      · simp [handleSubmitGate, validationErrors, h1, h2, h3]

/-- Witness for `submit_validation_gate` on a page whose form is
    `emptyForm`: generation is not issued and all three messages are
    recorded. -/
theorem submit_validation_gate_witness :
    (handleSubmitGate ⟨emptyForm, false, none, []⟩).2 = false ∧
    (handleSubmitGate ⟨emptyForm, false, none, []⟩).1.errors =
      validationErrors emptyForm ∧
    (handleSubmitGate ⟨emptyForm, false, none, []⟩).1.formState =
      emptyForm := by
  have h := submit_validation_gate ⟨emptyForm, false, none, []⟩
  have hfalse : (handleSubmitGate ⟨emptyForm, false, none, []⟩).2 = false := by
    decide
  exact ⟨hfalse, (h.2.2 hfalse).1, h.2.1⟩
